import Mathlib

/-!
# Verification of the Saleor React Native demo (App.tsx, Products.tsx)

A shallow embedding of the two presentation components of the repository:

* `src/App.tsx` — constructs one Apollo client (fixed URI, fresh in-memory
  cache) and renders a static header above the product list.
* `src/Products.tsx` — declares one GraphQL query (`GET_PRODUCTS`), and on
  render either shows the literal text "Loading" or maps the resolved
  edge array through a `FlatList` with two columns.

React elements are embedded as an inductive render tree `RNode`; style
objects are embedded as an optional-field record mirroring the
`StyleSheet.create` literals.  JavaScript partiality (dereferencing a
possibly-absent value) is embedded with `Option`: a render that would
throw a `TypeError` is `none`.
-/

namespace SaleorDemo

/-- A CSS dimension as used in the style literals: either a pixel count
(`height: 100`) or a percentage string (`width: '100%'`). -/
inductive Dim where
  | px : Nat → Dim
  | percent : Nat → Dim
  deriving Repr, DecidableEq

/-- A React Native style object; only the keys occurring in the source
style literals are modelled, each optional with `none` = key absent. -/
structure Style where
  flex : Option Nat := none
  alignItems : Option String := none
  justifyContent : Option String := none
  backgroundColor : Option String := none
  width : Option Dim := none
  height : Option Dim := none
  color : Option String := none
  fontSize : Option Nat := none
  fontWeight : Option String := none
  textAlign : Option String := none
  padding : Option Nat := none
  deriving Repr, DecidableEq

/-! ## Style literals from `App.tsx` (`styles = StyleSheet.create ...`) -/

/-- `App.tsx` `styles.container`. -/
def appContainerStyle : Style :=
  { flex := some 1, alignItems := some "center", justifyContent := some "center" }

/-- `App.tsx` `styles.header`. -/
def headerStyle : Style :=
  { backgroundColor := some "blue", width := some (Dim.percent 100),
    height := some (Dim.px 100) }

/-- `App.tsx` inline style of the header text. -/
def headerTextStyle : Style :=
  { color := some "#fff", fontSize := some 18 }

/-! ## Style literals from `Products.tsx` -/

/-- `Products.tsx` `styles.container`. -/
def prodContainerStyle : Style :=
  { flex := some 1, width := some (Dim.percent 100) }

/-- `Products.tsx` `styles.title`. -/
def titleStyle : Style :=
  { width := some (Dim.percent 100), textAlign := some "center",
    fontSize := some 20, padding := some 20 }

/-- `Products.tsx` `styles.product`. -/
def productStyle : Style :=
  { flex := some 1, alignItems := some "center",
    justifyContent := some "center", padding := some 20 }

/-- `Products.tsx` inline style of the `Image` (`height: 150, width: 150`). -/
def imageStyle : Style :=
  { height := some (Dim.px 150), width := some (Dim.px 150) }

/-- `Products.tsx` inline style of the product name text. -/
def nameTextStyle : Style :=
  { fontSize := some 16, fontWeight := some "bold" }

/-! ## The data model of the query result (section 3 of the spec)

The response shape is dictated by the `GET_PRODUCTS` query in
`Products.tsx`: `products.edges[].node.{id,name,description,thumbnail.url}`.
The `thumbnail` field is nullable in the remote schema and the code reads
`item.node.thumbnail.url` without a guard, so it is an `Option` here. -/

structure Thumbnail where
  url : String
  deriving Repr, DecidableEq

structure ProductNode where
  id : String
  name : String
  description : String
  thumbnail : Option Thumbnail
  deriving Repr, DecidableEq

structure Edge where
  node : ProductNode
  deriving Repr, DecidableEq

structure ProductsConnection where
  edges : List Edge
  deriving Repr, DecidableEq

structure QueryData where
  products : ProductsConnection
  deriving Repr, DecidableEq

/-! ## The render tree -/

/-- A rendered React Native element.  `flatList` records the resolved
output of a `FlatList`: its `numColumns` prop, the rendered
`ListHeaderComponent`, and the list of (extracted key, rendered item)
cells produced by mapping `renderItem`/`keyExtractor` over `data`. -/
inductive RNode where
  | text : Style → String → RNode
  | image : Style → String → RNode
  | statusBar : String → RNode
  | view : Style → List RNode → RNode
  | safeArea : Style → List RNode → RNode
  | flatList : Nat → RNode → List (String × RNode) → RNode

/-! ## `Products.tsx` -/

/-- The `GET_PRODUCTS` query: its argument values and the node fields it
selects, read off the `gql` template literal in `Products.tsx`. -/
structure ProductsQuery where
  first : Nat
  channel : String
  nodeFields : List String
  deriving Repr, DecidableEq

def GET_PRODUCTS : ProductsQuery :=
  { first := 10, channel := "default-channel",
    nodeFields := ["id", "name", "description", "thumbnail.url"] }

/-- `keyExtractor={(item) => item.node.id}`. -/
def keyExtractor (item : Edge) : String :=
  item.node.id

/-- The `renderItem` callback: an `Image` from `item.node.thumbnail.url`,
the name in bold, and the literal text `$4.50`.  The unguarded
`item.node.thumbnail.url` dereference makes the result `none` when
`thumbnail` is absent. -/
def renderItem (item : Edge) : Option RNode :=
  item.node.thumbnail.map fun t =>
    RNode.view productStyle
      [RNode.image imageStyle t.url,
       RNode.text nameTextStyle item.node.name,
       RNode.text {} "$4.50"]

/-- The `ListHeaderComponent` of the `FlatList`. -/
def titleNode : RNode :=
  RNode.text titleStyle "Products"

/-- The cells of the `FlatList`: `renderItem`/`keyExtractor` mapped in
order over `data.products.edges`, propagating undefinedness. -/
def renderedCells : List Edge → Option (List (String × RNode))
  | [] => some []
  | item :: rest =>
    match renderItem item, renderedCells rest with
    | some cell, some cells => some ((keyExtractor item, cell) :: cells)
    | _, _ => none

/-- The output rendered while the result is pending. -/
def loadingView : RNode :=
  RNode.safeArea prodContainerStyle [RNode.text {} "Loading"]

/-- The grid rendered once cells are available: a `FlatList` with
`numColumns={2}` inside the `SafeAreaView`. -/
def gridView (cells : List (String × RNode)) : RNode :=
  RNode.safeArea prodContainerStyle [RNode.flatList 2 titleNode cells]

/-- The render function of the `Products` component, in terms of the
`loading`/`data` pair destructured from `useQuery(GET_PRODUCTS)`.
When `loading` is false the code dereferences `data.products.edges`
with no guard, so an absent `data` renders to `none` (a thrown
`TypeError`), as does an absent `thumbnail` on any node. -/
def ProductsRender (loading : Bool) (data : Option QueryData) : Option RNode :=
  if loading then
    some loadingView
  else
    match data with
    | none => none
    | some d =>
      match renderedCells d.products.edges with
      | none => none
      | some cells => some (gridView cells)

/-- The query dispatched by a render of `Products`.  The call is
`useQuery(GET_PRODUCTS)` with a module-level constant argument, so the
result ignores the render state entirely. -/
def dispatchedQuery (_renderState : Bool × Option QueryData) : ProductsQuery :=
  GET_PRODUCTS

/-- The three outcomes of the single request dispatched by `useQuery`. -/
inductive QueryState where
  | pending
  | resolved : QueryData → QueryState
  | failed : QueryState
  deriving Repr, DecidableEq

/-- Modelled from the spec: the `loading`/`data` pair returned to the
component by the external query client, which is not part of this
repository.  Per section 7 of the spec, a failure surfaces as "an error
field returned alongside loading/data, here never inspected": once the
request settles — with data or with an error — `loading` is false, and
`data` carries the payload only on success. -/
def hookResult : QueryState → Bool × Option QueryData
  | QueryState.pending => (true, none)
  | QueryState.resolved d => (false, some d)
  | QueryState.failed => (false, none)

/-! ## `App.tsx` -/

/-- The Apollo client configuration literal from `App.tsx`: a fixed
endpoint URI and a freshly constructed `InMemoryCache`. -/
structure ApolloClientConfig where
  uri : String
  freshInMemoryCache : Bool
  deriving Repr, DecidableEq

def client : ApolloClientConfig :=
  { uri := "https://demo.saleor.io/graphql/", freshInMemoryCache := true }

/-- The clients constructed by the program: `App.tsx` constructs `client`
once at module scope and nothing else constructs one. -/
def constructedClients : List ApolloClientConfig :=
  [client]

/-- The queries the program can dispatch: `useQuery(GET_PRODUCTS)` in
`Products.tsx` is the only query or mutation call site in the source. -/
def issuedQueries : List ProductsQuery :=
  [GET_PRODUCTS]

/-- The fixed header of `App`: a `View` with the blue header style
containing a `SafeAreaView` with the static title text. -/
def headerNode : RNode :=
  RNode.view headerStyle
    [RNode.safeArea appContainerStyle
      [RNode.text headerTextStyle "React Native Demo Home Page"]]

/-- The render function of `App` given the rendered `Products` subtree:
status bar, header, then the product list, inside the container view. -/
def AppRender (productsView : RNode) : RNode :=
  RNode.view appContainerStyle
    [RNode.statusBar "auto", headerNode, productsView]

/-- The whole rendered tree as a function of the query hook state;
undefined exactly when the `Products` render is undefined. -/
def AppRenderState (loading : Bool) (data : Option QueryData) : Option RNode :=
  (ProductsRender loading data).map AppRender

/-- Extracts the header region (the second child) of a rendered `App`
tree. -/
def headerOf : RNode → Option RNode
  | RNode.view _ [_, h, _] => some h
  | _ => none

/-! ## Observation helpers on render trees -/

mutual

/-- Does some node of the tree satisfy the Boolean predicate `p`? -/
def containsNode (p : RNode → Bool) : RNode → Bool
  | RNode.text s c => p (RNode.text s c)
  | RNode.image s u => p (RNode.image s u)
  | RNode.statusBar s => p (RNode.statusBar s)
  | RNode.view s cs => p (RNode.view s cs) || containsNodeList p cs
  | RNode.safeArea s cs => p (RNode.safeArea s cs) || containsNodeList p cs
  | RNode.flatList n h cells =>
    p (RNode.flatList n h cells) || containsNode p h || containsNodeCells p cells

def containsNodeList (p : RNode → Bool) : List RNode → Bool
  | [] => false
  | c :: cs => containsNode p c || containsNodeList p cs

def containsNodeCells (p : RNode → Bool) : List (String × RNode) → Bool
  | [] => false
  | c :: cs => containsNode p c.2 || containsNodeCells p cs

end

/-- Is this node a `Text` element with the given content? -/
def isTextWith (s : String) : RNode → Bool
  | RNode.text _ c => c == s
  | _ => false

/-- Is this node a `FlatList` (i.e. a grid)? -/
def isFlatListNode : RNode → Bool
  | RNode.flatList _ _ _ => true
  | _ => false

/-- Is this node shaped like a product item cell (a `View` holding an
`Image` and two `Text` elements)? -/
def isItemCellNode : RNode → Bool
  | RNode.view _ [RNode.image _ _, RNode.text _ _, RNode.text _ _] => true
  | _ => false

/-- The thumbnail URL the item renderer reads from an edge (`""` only in
the undefined case of an absent thumbnail, which `renderItem` maps to
`none` instead). -/
def thumbUrlOf (e : Edge) : String :=
  (e.node.thumbnail.map Thumbnail.url).getD ""

/-- The item cell produced for an edge whose thumbnail is present. -/
def itemCellView (e : Edge) : RNode :=
  RNode.view productStyle
    [RNode.image imageStyle (thumbUrlOf e),
     RNode.text nameTextStyle e.node.name,
     RNode.text {} "$4.50"]

/-- The keyed cell produced for an edge whose thumbnail is present. -/
def cellOf (e : Edge) : String × RNode :=
  (keyExtractor e, itemCellView e)

/-! ## Concrete sample data used by the witness statements -/

def demoThumb : Thumbnail :=
  ⟨"https://demo.saleor.io/media/p1.png"⟩

def demoEdges : List Edge :=
  [⟨⟨"UHJvZHVjdDox", "Apple Juice", "first description", some demoThumb⟩⟩,
   ⟨⟨"UHJvZHVjdDoy", "Banana Juice", "second description", some demoThumb⟩⟩]

def demoData : QueryData :=
  ⟨⟨demoEdges⟩⟩

/-! ## Helper lemmas -/

/-- When every node carries a thumbnail, the `FlatList` cells are exactly
the pointwise image of `cellOf` over the edges, in order. -/
theorem renderedCells_eq_map :
    ∀ edges : List Edge, (∀ e ∈ edges, e.node.thumbnail.isSome = true) →
      renderedCells edges = some (edges.map cellOf)
  | [], _ => rfl
  | e :: es, h => by
    obtain ⟨t, ht⟩ := Option.isSome_iff_exists.mp (h e (List.mem_cons_self e es))
    have ih := renderedCells_eq_map es fun x hx => h x (List.mem_cons_of_mem e hx)
    simp [renderedCells, renderItem, ht, ih, cellOf, itemCellView, thumbUrlOf,
      keyExtractor]

/-- The item renderer is defined exactly when the thumbnail is present. -/
theorem renderItem_isSome (e : Edge) :
    (renderItem e).isSome = e.node.thumbnail.isSome := by
  simp only [renderItem]
  cases e.node.thumbnail <;> rfl

/-- Definedness of a cons of cells splits over head and tail. -/
theorem renderedCells_cons_isSome (e : Edge) (es : List Edge) :
    (renderedCells (e :: es)).isSome
      = ((renderItem e).isSome && (renderedCells es).isSome) := by
  simp only [renderedCells]
  cases renderItem e <;> cases renderedCells es <;> rfl

/-- The cells are defined exactly when every node carries a thumbnail. -/
theorem renderedCells_isSome_iff (edges : List Edge) :
    (renderedCells edges).isSome = true ↔
      ∀ e ∈ edges, e.node.thumbnail.isSome = true := by
  induction edges with
  | nil => simp [renderedCells]
  | cons e es ih =>
    rw [renderedCells_cons_isSome, renderItem_isSome]
    simp only [Bool.and_eq_true, ih, List.forall_mem_cons]

/-- The extracted keys of defined cells are the node identifiers, in
order. -/
theorem renderedCells_map_fst :
    ∀ (edges : List Edge) (cells : List (String × RNode)),
      renderedCells edges = some cells →
        cells.map Prod.fst = edges.map fun e => e.node.id
  | [], cells, h => by
    rw [renderedCells] at h
    cases h
    rfl
  | e :: es, cells, h => by
    rw [renderedCells] at h
    cases h1 : renderItem e with
    | none => rw [h1] at h; cases h
    | some cell =>
      cases h2 : renderedCells es with
      | none => rw [h1, h2] at h; cases h
      | some cs =>
        rw [h1, h2] at h
        cases h
        simpa [keyExtractor] using renderedCells_map_fst es cs h2

/-- On a resolved (non-loading, data present) state the render is the
grid over the cells, propagating their undefinedness. -/
theorem ProductsRender_false_some (d : QueryData) :
    ProductsRender false (some d)
      = (renderedCells d.products.edges).map gridView := by
  cases h : renderedCells d.products.edges <;> simp [ProductsRender, h]

/-- An edge with its description field cleared; two edges agree on
everything but their descriptions iff they have equal scrubs. -/
def scrubDescription (e : Edge) : Edge :=
  ⟨⟨e.node.id, e.node.name, "", e.node.thumbnail⟩⟩

/-- The cells never look at the description field. -/
theorem renderedCells_scrub (edges : List Edge) :
    renderedCells (edges.map scrubDescription) = renderedCells edges := by
  induction edges with
  | nil => rfl
  | cons e es ih =>
    simp only [List.map_cons, renderedCells, ih]
    cases ht : e.node.thumbnail <;>
      simp [renderItem, scrubDescription, keyExtractor, ht]

/-- Sample edges agreeing with `demoEdges` except in their descriptions. -/
def demoEdgesAlt : List Edge :=
  [⟨⟨"UHJvZHVjdDox", "Apple Juice", "a changed description", some demoThumb⟩⟩,
   ⟨⟨"UHJvZHVjdDoy", "Banana Juice", "", some demoThumb⟩⟩]

/-! ## The claims -/

/-- C1: For every resolved result with N edge records (0 ≤ N ≤ 10), each
node carrying a thumbnail, the `Products` render is a grid — a
`FlatList` with `numColumns = 2` — containing exactly N item cells, the
cell of each record displaying that record's name and the literal price
text `$4.50`. -/
theorem products_grid_n_cells_two_columns (edges : List Edge)
    (_hlen : edges.length ≤ 10)
    (hth : ∀ e ∈ edges, e.node.thumbnail.isSome = true) :
    ∃ cells : List (String × RNode),
      ProductsRender false (some ⟨⟨edges⟩⟩)
          = some (RNode.safeArea prodContainerStyle
              [RNode.flatList 2 titleNode cells]) ∧
      cells.length = edges.length ∧
      List.Forall₂ (fun (e : Edge) (c : String × RNode) =>
        c.2 = RNode.view productStyle
          [RNode.image imageStyle (thumbUrlOf e),
           RNode.text nameTextStyle e.node.name,
           RNode.text {} "$4.50"]) edges cells := by
  refine ⟨edges.map cellOf, ?_, by simp, ?_⟩
  · rw [ProductsRender_false_some, renderedCells_eq_map edges hth]
    rfl
  · rw [List.forall₂_map_right_iff]
    exact List.forall₂_same.mpr fun e _ => rfl

theorem products_grid_n_cells_two_columns_witness :
    demoEdges.length ≤ 10 ∧
    (∀ e ∈ demoEdges, e.node.thumbnail.isSome = true) ∧
    ∃ cells : List (String × RNode),
      ProductsRender false (some ⟨⟨demoEdges⟩⟩)
          = some (RNode.safeArea prodContainerStyle
              [RNode.flatList 2 titleNode cells]) ∧
      cells.length = demoEdges.length ∧
      List.Forall₂ (fun (e : Edge) (c : String × RNode) =>
        c.2 = RNode.view productStyle
          [RNode.image imageStyle (thumbUrlOf e),
           RNode.text nameTextStyle e.node.name,
           RNode.text {} "$4.50"]) demoEdges cells :=
  ⟨by decide, by decide,
   products_grid_n_cells_two_columns demoEdges (by decide) (by decide)⟩

/-- C2: While the query is pending (`loading` is true), the render is the
literal text `Loading` regardless of `data`, and that output contains no
grid: no `FlatList` node and no item cell occurs in it. -/
theorem products_pending_renders_loading_only (data : Option QueryData) :
    ProductsRender true data = some loadingView ∧
    containsNode (isTextWith "Loading") loadingView = true ∧
    containsNode isFlatListNode loadingView = false ∧
    containsNode isItemCellNode loadingView = false := by
  refine ⟨rfl, ?_, ?_, ?_⟩ <;>
    simp [loadingView, containsNode, containsNodeList, isTextWith,
      isFlatListNode, isItemCellNode]

/-- C3 counterexample: on a failed query the hook reports `loading` false
with `data` absent, and the render of that state is undefined (the
unguarded dereference of `data`), not the loading view — so the output
does not "remain the loading-state output". -/
theorem products_failed_not_loading_counterexample :
    hookResult QueryState.failed = (false, none) ∧
    ProductsRender (hookResult QueryState.failed).1
        (hookResult QueryState.failed).2 = none ∧
    ProductsRender (hookResult QueryState.failed).1
        (hookResult QueryState.failed).2 ≠ some loadingView :=
  ⟨rfl, rfl, fun h => Option.noConfusion h⟩

/-- C3 amended: there is indeed no user-visible failure path — every
defined render is either the loading view or the product grid, never an
error view — but on a failed query the output does not remain the
loading view: the hook reports `loading` false with `data` absent and
the render is undefined (an unguarded dereference of absent data). -/
theorem products_no_error_ui (qs : QueryState) :
    (qs = QueryState.failed →
      ProductsRender (hookResult qs).1 (hookResult qs).2 = none) ∧
    ∀ r, ProductsRender (hookResult qs).1 (hookResult qs).2 = some r →
      r = loadingView ∨ ∃ cells, r = gridView cells := by
  cases qs with
  | pending =>
    exact ⟨fun h => QueryState.noConfusion h,
      fun r hr => Or.inl (Option.some.inj hr).symm⟩
  | failed => exact ⟨fun _ => rfl, fun r hr => Option.noConfusion hr⟩
  | resolved d =>
    refine ⟨fun h => QueryState.noConfusion h, fun r hr => ?_⟩
    rw [show hookResult (QueryState.resolved d) = (false, some d) from rfl] at hr
    rw [ProductsRender_false_some] at hr
    obtain ⟨cells, -, hc⟩ := Option.map_eq_some'.mp hr
    exact Or.inr ⟨cells, hc.symm⟩

theorem products_no_error_ui_witness :
    ProductsRender (hookResult QueryState.failed).1
        (hookResult QueryState.failed).2 = none ∧
    (loadingView = loadingView ∨ ∃ cells, loadingView = gridView cells) :=
  ⟨(products_no_error_ui QueryState.failed).1 rfl,
   (products_no_error_ui QueryState.pending).2 loadingView rfl⟩

/-- C4: each rendered item's extracted key is that item's node
identifier, the keys of the cells are exactly the node identifiers in
order, and when the identifiers are pairwise distinct so are the keys. -/
theorem flatlist_keys_are_ids (edges : List Edge)
    (cells : List (String × RNode))
    (hcells : renderedCells edges = some cells)
    (hnodup : (edges.map fun e => e.node.id).Nodup) :
    (∀ item : Edge, keyExtractor item = item.node.id) ∧
    cells.map Prod.fst = (edges.map fun e => e.node.id) ∧
    (cells.map Prod.fst).Nodup := by
  have hk := renderedCells_map_fst edges cells hcells
  exact ⟨fun _ => rfl, hk, hk ▸ hnodup⟩

theorem flatlist_keys_are_ids_witness :
    renderedCells demoEdges = some (demoEdges.map cellOf) ∧
    (demoEdges.map fun e => e.node.id).Nodup ∧
    ((∀ item : Edge, keyExtractor item = item.node.id) ∧
     (demoEdges.map cellOf).map Prod.fst = (demoEdges.map fun e => e.node.id) ∧
     ((demoEdges.map cellOf).map Prod.fst).Nodup) :=
  ⟨rfl, by decide,
   flatlist_keys_are_ids demoEdges (demoEdges.map cellOf) rfl (by decide)⟩

/-- C5: the query a render of `Products` dispatches is the module-level
constant `GET_PRODUCTS` — identical across any two render states, with
page size 10 and the fixed channel string. -/
theorem dispatched_query_constant :
    (∀ s1 s2 : Bool × Option QueryData,
      dispatchedQuery s1 = dispatchedQuery s2) ∧
    (∀ s : Bool × Option QueryData, dispatchedQuery s = GET_PRODUCTS) ∧
    GET_PRODUCTS.first = 10 ∧
    GET_PRODUCTS.channel = "default-channel" :=
  ⟨fun _ _ => rfl, fun _ => rfl, rfl, rfl⟩

/-- C6: the header region of the rendered `App` tree is the same fixed
node — blue background, static title text — for any two hook states, in
particular regardless of whether the query is pending or resolved. -/
theorem header_independent_of_loading
    (s1 s2 : Bool × Option QueryData) (r1 r2 : RNode)
    (h1 : AppRenderState s1.1 s1.2 = some r1)
    (h2 : AppRenderState s2.1 s2.2 = some r2) :
    headerOf r1 = headerOf r2 ∧
    headerOf r1 = some headerNode ∧
    headerStyle.backgroundColor = some "blue" ∧
    headerNode = RNode.view headerStyle
      [RNode.safeArea appContainerStyle
        [RNode.text headerTextStyle "React Native Demo Home Page"]] := by
  simp only [AppRenderState] at h1 h2
  obtain ⟨p1, -, rfl⟩ := Option.map_eq_some'.mp h1
  obtain ⟨p2, -, rfl⟩ := Option.map_eq_some'.mp h2
  exact ⟨rfl, rfl, rfl, rfl⟩

theorem header_independent_of_loading_witness :
    headerOf (AppRender loadingView) = headerOf (AppRender (gridView [])) ∧
    headerOf (AppRender loadingView) = some headerNode ∧
    headerStyle.backgroundColor = some "blue" ∧
    headerNode = RNode.view headerStyle
      [RNode.safeArea appContainerStyle
        [RNode.text headerTextStyle "React Native Demo Home Page"]] :=
  header_independent_of_loading (true, none) (false, some ⟨⟨[]⟩⟩)
    (AppRender loadingView) (AppRender (gridView [])) rfl rfl

/-- C7: the program constructs exactly one client, bound to the fixed
HTTPS endpoint with a fresh in-memory cache, and issues exactly one
query shape: first 10 edges on the hardcoded channel, selecting id,
name, description and thumbnail URL. -/
theorem single_fixed_endpoint_and_query :
    constructedClients = [client] ∧
    client.uri = "https://demo.saleor.io/graphql/" ∧
    (∃ rest, client.uri = "https://" ++ rest) ∧
    client.freshInMemoryCache = true ∧
    issuedQueries = [GET_PRODUCTS] ∧
    GET_PRODUCTS.first = 10 ∧
    GET_PRODUCTS.channel = "default-channel" ∧
    GET_PRODUCTS.nodeFields = ["id", "name", "description", "thumbnail.url"] ∧
    (∀ s : Bool × Option QueryData, dispatchedQuery s = GET_PRODUCTS) :=
  ⟨rfl, rfl, ⟨"demo.saleor.io/graphql/", by decide⟩, rfl, rfl, rfl, rfl, rfl,
   fun _ => rfl⟩

/-- C8: the rendered view never reads the description field — two
resolved results whose edges agree on everything except descriptions
render identically. -/
theorem render_independent_of_description (loading : Bool)
    (d1 d2 : QueryData)
    (h : d1.products.edges.map scrubDescription
          = d2.products.edges.map scrubDescription) :
    ProductsRender loading (some d1) = ProductsRender loading (some d2) := by
  cases loading with
  | true => rfl
  | false =>
    have hc : renderedCells d1.products.edges
        = renderedCells d2.products.edges := by
      rw [← renderedCells_scrub d1.products.edges, h, renderedCells_scrub]
    rw [ProductsRender_false_some, ProductsRender_false_some, hc]

theorem render_independent_of_description_witness :
    demoData.products.edges.map scrubDescription
        = (QueryData.mk ⟨demoEdgesAlt⟩).products.edges.map scrubDescription ∧
    ProductsRender false (some demoData)
        = ProductsRender false (some (QueryData.mk ⟨demoEdgesAlt⟩)) :=
  ⟨by decide,
   render_independent_of_description false demoData ⟨⟨demoEdgesAlt⟩⟩ (by decide)⟩

/-- C9: the render is defined exactly when the state is still loading, or
the data is present and every node carries a thumbnail; outside that
precondition (e.g. a failed query with absent data, or a node with a
null thumbnail) the unguarded dereferences leave the render undefined. -/
theorem render_defined_iff (loading : Bool) (data : Option QueryData) :
    (ProductsRender loading data).isSome = true ↔
      (loading = true ∨ ∃ d, data = some d ∧
        ∀ e ∈ d.products.edges, e.node.thumbnail.isSome = true) := by
  cases loading with
  | true => simp [ProductsRender]
  | false =>
    cases data with
    | none => simp [ProductsRender]
    | some d =>
      rw [ProductsRender_false_some]
      simp [Option.isSome_map', renderedCells_isSome_iff]

/-- C10: the grid is the order-preserving pointwise map of the item
renderer over the edges: at every index the cell is the keyed item view
of the node wrapped by the edge at that index — its key the node's id,
its view showing the node's thumbnail URL and name. -/
theorem grid_is_pointwise_map (edges : List Edge)
    (hth : ∀ e ∈ edges, e.node.thumbnail.isSome = true) :
    ∃ cells : List (String × RNode),
      ProductsRender false (some ⟨⟨edges⟩⟩) = some (gridView cells) ∧
      ∀ i : Nat, cells[i]? = (edges[i]?).map cellOf := by
  refine ⟨edges.map cellOf, ?_, fun i => ?_⟩
  · rw [ProductsRender_false_some, renderedCells_eq_map edges hth]
    rfl
  · simp [List.getElem?_map]

theorem grid_is_pointwise_map_witness :
    (∀ e ∈ demoEdges, e.node.thumbnail.isSome = true) ∧
    ∃ cells : List (String × RNode),
      ProductsRender false (some ⟨⟨demoEdges⟩⟩) = some (gridView cells) ∧
      ∀ i : Nat, cells[i]? = (demoEdges[i]?).map cellOf :=
  ⟨by decide, grid_is_pointwise_map demoEdges (by decide)⟩

end SaleorDemo
